import Mathlib

/-!
Shallow embedding of `src/main.rs` of the msedgedriver provisioning tool.

External effects (the powershell invocation, the HTTP transport, the zip
decoder, the filesystem) are injected as explicit parameters, exactly at the
boundary where the Rust code calls into `std::process`, `ureq`, `zip` and
`std::fs`; everything the repository itself computes is translated directly.
-/

namespace MsedgedriverTool

/-- Decidable equality for `Except`, so that runs of the embedded functions
can be checked on concrete inputs. -/
instance {ε : Type u} {α : Type v} [DecidableEq ε] [DecidableEq α] :
    DecidableEq (Except ε α) := fun x y =>
  match x, y with
  | .error u, .error v =>
    if h : u = v then .isTrue (by rw [h]) else .isFalse (by simp [h])
  | .ok u, .ok v =>
    if h : u = v then .isTrue (by rw [h]) else .isFalse (by simp [h])
  | .error _, .ok _ => .isFalse (by simp)
  | .ok _, .error _ => .isFalse (by simp)

/-- Errors of the `ureq` HTTP boundary as `fetch` can observe them:
`transport` covers transport/DNS/TLS failures and `statusCode` the non-2xx
statuses (both raised by `.call()`), `bodyExceedsLimit` is the error
`read_to_vec` raises when the body is larger than the configured limit. -/
inductive UreqErr where
  | transport (cause : String)
  | statusCode (code : Nat)
  | bodyExceedsLimit
deriving DecidableEq

/-- Errors of the `zip` boundary as `extract` can observe them:
`invalidArchive` when the buffer is not a valid zip archive
(`ZipArchive::new`), `fileNotFound` when `by_name` finds no entry. -/
inductive ZipErr where
  | invalidArchive (cause : String)
  | fileNotFound
deriving DecidableEq

/-- The error enum of src/main.rs (`enum Error`), with the external libraries'
error payloads reduced to the data the program can observe. -/
inductive Error where
  | Powershell (cause : String)
  | NoInstallFound
  | Platform (os arch : String)
  | Unsupported
  | Io (cause : String)
  | UReq (err : UreqErr)
  | Zip (err : ZipErr)
deriving DecidableEq

/-- The observable part of `std::process::Output`: the exit status collapsed
to `ExitStatus::success()` and the stdout bytes, already decoded the way
`String::from_utf8_lossy` presents them. -/
structure Output where
  success : Bool
  stdout : String
deriving DecidableEq

/-- Whitespace trimming on a character list: drop whitespace characters from
both ends, keeping the interior intact. This is Rust's `str::trim` as `main.rs`
line 176 uses it (the whitespace predicate restricted to the ASCII whitespace
characters that occur in command output). -/
def trimChars (l : List Char) : List Char :=
  ((l.dropWhile Char.isWhitespace).reverse.dropWhile Char.isWhitespace).reverse

/-- `str::trim` lifted to `String` through its character list. -/
def trimStr (s : String) : String := ⟨trimChars s.data⟩

/-- `Version::from_output` (src/main.rs lines 173-179):
`output.status.success().then(|| Version(trim(stdout)))`. Note that a clean
exit always yields a value: the trimmed stdout is not required to be
non-empty. -/
def Version.from_output (o : Output) : Option String :=
  if o.success then some (trimStr o.stdout) else none

/-- The four WebView2 install locations (`enum Webview2Install`). -/
inductive Webview2Install where
  | Global64
  | Global32
  | User64
  | User32
deriving DecidableEq

/-- `Webview2Install::ALL`: the fixed candidate order of src/main.rs line 149. -/
def Webview2Install.ALL : List Webview2Install :=
  [.Global64, .Global32, .User64, .User32]

/-- `pwsh_get_webview2_registry` (src/main.rs lines 192-200), with the
out-of-process powershell invocation injected as `run`: `run install` is what
`Command::output()` returns for that location (`Except String Output` models
`io::Result<Output>`). The function maps the raw result through
`Version::from_output` and wraps a mechanism failure in `Error::Powershell`. -/
def pwsh_get_webview2_registry (run : Webview2Install → Except String Output)
    (install : Webview2Install) : Except Error (Option String) :=
  match run install with
  | .error e => .error (.Powershell e)
  | .ok o => .ok (Version.from_output o)

/-- The loop of `webview2_version` (src/main.rs lines 182-190) over a candidate
list, instrumented with the list of candidates actually looked up: the `?` on
`pwsh_get_webview2_registry(install)?` stops the loop on a mechanism error, a
`Some` version returns immediately, a `None` moves to the next candidate, and
an exhausted list yields `Error::NoInstallFound`. -/
def webview2_versionGo (run : Webview2Install → Except String Output) :
    List Webview2Install → Except Error String × List Webview2Install
  | [] => (.error .NoInstallFound, [])
  | i :: rest =>
    match pwsh_get_webview2_registry run i with
    | .error e => (.error e, [i])
    | .ok (some v) => (.ok v, [i])
    | .ok none =>
      let r := webview2_versionGo run rest
      (r.1, i :: r.2)

/-- `webview2_version` (src/main.rs lines 182-190): resolve the installed
version over the four candidates in order. -/
def webview2_version (run : Webview2Install → Except String Output) :
    Except Error String :=
  (webview2_versionGo run Webview2Install.ALL).1

/-- The sequence of install locations `webview2_version` actually looks up,
in order: the prefix of `Webview2Install::ALL` up to and including the first
candidate whose lookup returns a version or a mechanism error. -/
def webview2_lookups (run : Webview2Install → Except String Output) :
    List Webview2Install :=
  (webview2_versionGo run Webview2Install.ALL).2

/-- `driver_url` (src/main.rs lines 67-69): pure string templating of the
download URL from the version and platform label. -/
def driver_url (version platform : String) : String :=
  "https://msedgedriver.microsoft.com/" ++ version ++ "/edgedriver_" ++
    platform ++ ".zip"

/-- The driver filename chosen in `main` (src/main.rs line 86):
`msedgedriver.exe` when `env::consts::OS` is windows, `msedgedriver`
otherwise. -/
def driver_filename (os : String) : String :=
  if os = "windows" then "msedgedriver.exe" else "msedgedriver"

/-- `Platform::current` (src/main.rs lines 121-132), with the compile-time
constants `env::consts::OS` / `env::consts::ARCH` passed explicitly. -/
def Platform.current (os arch : String) : Except Error String :=
  match os, arch with
  | "windows", "x86_64" => .ok ("win64")
  | "windows", "aarch64" => .ok ("arm64")
  | "windows", "x86" => .ok ("win32")
  | "macos", "x86_64" => .ok ("mac64")
  | "macos", "aarch64" => .ok ("mac64_m1")
  | "linux", "x86_64" => .ok ("linux64")
  | os, arch => .error (.Platform os arch)

/-- The fixed response-body ceiling of `fetch` (src/main.rs line 99):
`100 * 1024 * 1024` bytes. -/
def fetchLimit : Nat := 100 * 1024 * 1024

/-- `fetch` (src/main.rs lines 93-101), with the single HTTP GET injected:
`resp` is the outcome of `ureq::get(url).header(USER_AGENT, ..).call()`
followed by reading the raw body — an error for any transport/DNS/TLS or
non-2xx-status failure, or the full body bytes. Per ureq's documented
`.limit(n)` semantics, `read_to_vec` returns the body when it has at most `n`
bytes and fails with the body-exceeds-limit error otherwise; any `ureq` error
is wrapped as `Error::UReq`. The single `resp` argument reflects that `fetch`
issues exactly one request and never retries. -/
def fetch (resp : Except UreqErr (List Nat)) : Except Error (List Nat) :=
  match resp with
  | .error e => .error (.UReq e)
  | .ok body =>
    if body.length ≤ fetchLimit then .ok body
    else .error (.UReq .bodyExceedsLimit)

/-- The zip boundary: what `ZipArchive::new` makes of a byte buffer — either
not a valid archive, or a table of members, each an entry name with the bytes
its decompressed contents stream to. -/
inductive ZipData where
  | invalid (cause : String)
  | valid (members : List (String × List Nat))

/-- `ZipArchive::by_name`: locate a member by exact name equality (first
match), returning its decompressed contents. -/
def ZipArchive.by_name (members : List (String × List Nat)) (name : String) :
    Option (List Nat) :=
  (members.find? (fun m => m.1 == name)).map (fun m => m.2)

/-- A filesystem as the Rust code observes it: each path maps to the byte
contents of the file there, if any. -/
def FS := String → Option (List Nat)

/-- `File::create` followed by a complete `io::copy`: create the file if
absent, truncate it if present, and write exactly `content` to it. -/
def fsWrite (fs : FS) (name : String) (content : List Nat) : FS :=
  fun n => if n = name then some content else fs n

/-- `extract` (src/main.rs lines 103-109) over the zip boundary and an
explicit filesystem: open the buffer as an archive (`CorruptArchive` on an
invalid buffer), locate the entry named `filename` (`MemberNotFound` if
absent), then create/truncate the file named `filename` and stream the
member's decompressed contents into it. The returned filesystem is the state
after the call: unchanged on either failure, since `File::create` runs only
after `by_name` succeeds. -/
def extract (archive : ZipData) (filename : String) (fs : FS) :
    Except Error Unit × FS :=
  match archive with
  | .invalid e => (.error (.Zip (.invalidArchive e)), fs)
  | .valid members =>
    match ZipArchive.by_name members filename with
    | none => (.error (.Zip .fileNotFound), fs)
    | some content => (.ok (), fsWrite fs filename content)

/-- One observable external action of a run of `main`. -/
inductive Action where
  | lookup (install : Webview2Install)
  | resolvePlatform
  | httpGet (url : String)
  | fileWrite (name : String)
deriving DecidableEq

/-- The environment a run of `main` executes in: the `cfg!(windows)`
compile-time flag, the `env::consts` values, and the injected external
boundaries (powershell, HTTP, zip decoding, initial filesystem). -/
structure World where
  windowsCfg : Bool
  os : String
  arch : String
  run : Webview2Install → Except String Output
  http : String → Except UreqErr (List Nat)
  zipOf : List Nat → ZipData
  fs : FS

/-- `main` (src/main.rs lines 71-91): the non-Windows guard, then version
resolution, platform resolution, fetch, and extraction, each stage
short-circuiting on failure. Returns the result, the final filesystem, and
the trace of external actions performed, in order. -/
def mainRun (w : World) : Except Error Unit × FS × List Action :=
  if !w.windowsCfg then (.error .Unsupported, w.fs, [])
  else
    let r := webview2_versionGo w.run Webview2Install.ALL
    let acts := r.2.map Action.lookup
    match r.1 with
    | .error e => (.error e, w.fs, acts)
    | .ok version =>
      let acts := acts ++ [Action.resolvePlatform]
      match Platform.current w.os w.arch with
      | .error e => (.error e, w.fs, acts)
      | .ok platform =>
        let url := driver_url version platform
        let acts := acts ++ [Action.httpGet url]
        match fetch (w.http url) with
        | .error e => (.error e, w.fs, acts)
        | .ok archive =>
          let filename := driver_filename w.os
          let er := extract (w.zipOf archive) filename w.fs
          match er.1 with
          | .error e => (.error e, er.2, acts)
          | .ok _ => (.ok (), er.2, acts ++ [Action.fileWrite filename])

/-! Helper lemmas about the version-resolution loop. -/

/-- Candidates whose invocation completes with an unsuccessful exit contribute
nothing: the loop walks past them, recording them in the lookup trace. -/
lemma versionGo_append_clean_none (run : Webview2Install → Except String Output)
    (pre rest : List Webview2Install)
    (hpre : ∀ j ∈ pre, ∃ oj, run j = .ok oj ∧ oj.success = false) :
    webview2_versionGo run (pre ++ rest) =
      ((webview2_versionGo run rest).1, pre ++ (webview2_versionGo run rest).2) := by
  induction pre with
  | nil => simp
  | cons a l ih =>
    obtain ⟨o, ho, hs⟩ := hpre a (by simp)
    have ihl := ih (fun j hj => hpre j (by simp [hj]))
    simp [webview2_versionGo, pwsh_get_webview2_registry, ho,
      Version.from_output, hs, ihl]

/-- A candidate whose invocation exits successfully stops the loop with its
trimmed stdout. -/
lemma versionGo_head_some (run : Webview2Install → Except String Output)
    (i : Webview2Install) (rest : List Webview2Install) (o : Output)
    (hrun : run i = .ok o) (hsucc : o.success = true) :
    webview2_versionGo run (i :: rest) = (.ok (trimStr o.stdout), [i]) := by
  simp [webview2_versionGo, pwsh_get_webview2_registry, hrun,
    Version.from_output, hsucc]

/-- A candidate whose invocation cannot be run stops the loop with a
`Powershell` error. -/
lemma versionGo_head_error (run : Webview2Install → Except String Output)
    (i : Webview2Install) (rest : List Webview2Install) (e : String)
    (hrun : run i = .error e) :
    webview2_versionGo run (i :: rest) = (.error (.Powershell e), [i]) := by
  simp [webview2_versionGo, pwsh_get_webview2_registry, hrun]

/-- When every candidate completes with an unsuccessful exit, the loop
exhausts the list and reports `NoInstallFound`. -/
lemma versionGo_all_clean_none (run : Webview2Install → Except String Output)
    (l : List Webview2Install)
    (h : ∀ j ∈ l, ∃ oj, run j = .ok oj ∧ oj.success = false) :
    webview2_versionGo run l = (.error .NoInstallFound, l) := by
  induction l with
  | nil => rfl
  | cons a rest ih =>
    obtain ⟨o, ho, hs⟩ := h a (by simp)
    have ihr := ih (fun j hj => h j (by simp [hj]))
    simp [webview2_versionGo, pwsh_get_webview2_registry, ho,
      Version.from_output, hs, ihr]

/-- C1: version resolution short-circuits. Decompose the fixed candidate
order as `pre ++ i :: post`: when every candidate before `i` completes with an
unsuccessful exit (and so yields no value) and `i` is the first whose
invocation exits successfully — hence the first to yield a value —
`webview2_version` returns the whitespace-trimmed stdout of that invocation,
and the lookups performed are exactly `pre ++ [i]`: no candidate after `i` is
looked up. (Mechanism failures at earlier candidates are the separate
discipline settled by the C6 theorem.) -/
theorem webview2_version_short_circuit
    (run : Webview2Install → Except String Output)
    (pre post : List Webview2Install) (i : Webview2Install) (o : Output)
    (hsplit : Webview2Install.ALL = pre ++ i :: post)
    (hpre : ∀ j ∈ pre, ∃ oj, run j = .ok oj ∧ oj.success = false)
    (hrun : run i = .ok o) (hsucc : o.success = true) :
    webview2_version run = .ok (trimStr o.stdout) ∧
      webview2_lookups run = pre ++ [i] := by
  unfold webview2_version webview2_lookups
  rw [hsplit, versionGo_append_clean_none run pre _ hpre,
    versionGo_head_some run i post o hrun hsucc]
  exact ⟨rfl, rfl⟩

/-- A concrete run for the C1 witness: the first candidate exits
unsuccessfully, the second succeeds, the later ones would give different
answers if they were (wrongly) consulted. -/
def c1run : Webview2Install → Except String Output
  | .Global64 => .ok ⟨false, ""⟩
  | .Global32 => .ok ⟨true, " 1.2.3.4 "⟩
  | .User64 => .ok ⟨true, " 9.9.9.9 "⟩
  | .User32 => .error ("unreachable")

/-- Witness for C1 at a concrete run: the second candidate wins and only the
first two candidates are looked up. -/
theorem webview2_version_short_circuit_witness :
    webview2_version c1run = .ok ("1.2.3.4") ∧
      webview2_lookups c1run = [.Global64, .Global32] := by
  have h := webview2_version_short_circuit c1run [.Global64] [.User64, .User32]
    .Global32 ⟨true, " 1.2.3.4 "⟩ rfl
    (by
      intro j hj
      simp only [List.mem_singleton] at hj
      subst hj
      exact ⟨⟨false, ""⟩, rfl, rfl⟩)
    rfl rfl
  exact ⟨h.1.trans (by decide), h.2⟩

/-- C2 counterexample: the claim says a clean-exit invocation with empty or
whitespace-only stdout is treated as no value and that resolution never
returns an empty version. On the code, `Version::from_output` yields a value
for every successful exit — here `some ""` for whitespace-only stdout — and
resolution over a run whose first candidate exits cleanly with stdout
consisting of a space and a tab returns the empty version string. -/
theorem webview2_version_empty_counterexample :
    Version.from_output ⟨true, " \t "⟩ = some "" ∧
      webview2_version (fun _ => .ok ⟨true, " \t "⟩) = .ok ("") := by
  constructor <;> decide

/-- C2 amended: a candidate lookup succeeds exactly when the external
mechanism exits cleanly — the trimmed stdout is not required to be non-empty —
and resolution returns the (possibly empty) trimmed stdout of the first
clean-exit invocation. In particular a clean exit with whitespace-only stdout
is a successful resolution with the empty version string, so `resolve()` can
return an empty InstalledVersion. -/
theorem webview2_version_clean_exit_succeeds
    (run : Webview2Install → Except String Output) (o : Output)
    (hrun : run .Global64 = .ok o) (hsucc : o.success = true) :
    Version.from_output o = some (trimStr o.stdout) ∧
      webview2_version run = .ok (trimStr o.stdout) := by
  constructor
  · simp [Version.from_output, hsucc]
  · unfold webview2_version
    rw [show Webview2Install.ALL = .Global64 :: [.Global32, .User64, .User32]
        from rfl,
      versionGo_head_some run .Global64 _ o hrun hsucc]

/-- Witness for the amended C2: a clean exit whose stdout is a single space
resolves successfully to the empty version string. -/
theorem webview2_version_clean_exit_succeeds_witness :
    Version.from_output ⟨true, " "⟩ = some (trimStr (" ")) ∧
      webview2_version (fun _ => .ok ⟨true, " "⟩) = .ok (trimStr (" ")) :=
  webview2_version_clean_exit_succeeds (fun _ => .ok ⟨true, " "⟩)
    ⟨true, " "⟩ rfl rfl

/-- C5: when all four candidate lookups execute without a mechanism error but
none yields a value (every invocation completes with an unsuccessful exit),
resolution fails with `NoInstallFound` — no other error kind — after looking
up all four candidates. -/
theorem webview2_version_no_install_found
    (run : Webview2Install → Except String Output)
    (h : ∀ i : Webview2Install, ∃ o, run i = .ok o ∧ o.success = false) :
    webview2_version run = .error .NoInstallFound ∧
      webview2_lookups run = Webview2Install.ALL := by
  unfold webview2_version webview2_lookups
  rw [versionGo_all_clean_none run Webview2Install.ALL (fun j _ => h j)]
  exact ⟨rfl, rfl⟩

/-- Witness for C5: every candidate exits unsuccessfully, resolution reports
`NoInstallFound`. -/
theorem webview2_version_no_install_found_witness :
    webview2_version (fun _ => .ok ⟨false, ""⟩) = .error .NoInstallFound ∧
      webview2_lookups (fun _ => .ok ⟨false, ""⟩) = Webview2Install.ALL :=
  webview2_version_no_install_found (fun _ => .ok ⟨false, ""⟩)
    (fun _ => ⟨⟨false, ""⟩, rfl, rfl⟩)

/-- C6: the implementation follows the eager mechanism-failure discipline,
consistently at every candidate position. Decompose the candidate order as
`pre ++ i :: post`: when the candidates before `i` complete with unsuccessful
exits and the lookup mechanism itself cannot be invoked at `i`, resolution
aborts immediately with the `Powershell` lookup-failure error, and no
candidate after `i` is looked up (the trace is exactly `pre ++ [i]`). -/
theorem webview2_version_eager_lookup_failure
    (run : Webview2Install → Except String Output)
    (pre post : List Webview2Install) (i : Webview2Install) (e : String)
    (hsplit : Webview2Install.ALL = pre ++ i :: post)
    (hpre : ∀ j ∈ pre, ∃ oj, run j = .ok oj ∧ oj.success = false)
    (hrun : run i = .error e) :
    webview2_version run = .error (.Powershell e) ∧
      webview2_lookups run = pre ++ [i] := by
  unfold webview2_version webview2_lookups
  rw [hsplit, versionGo_append_clean_none run pre _ hpre,
    versionGo_head_error run i post e hrun]
  exact ⟨rfl, rfl⟩

/-- A concrete run for the C6 witness: the first candidate exits
unsuccessfully, invoking the mechanism for the second fails outright. -/
def c6run : Webview2Install → Except String Output
  | .Global64 => .ok ⟨false, ""⟩
  | _ => .error ("powershell not found")

/-- Witness for C6: a mechanism failure at the second candidate aborts the
whole resolution after two lookups. -/
theorem webview2_version_eager_lookup_failure_witness :
    webview2_version c6run = .error (.Powershell ("powershell not found")) ∧
      webview2_lookups c6run = [.Global64, .Global32] := by
  have h := webview2_version_eager_lookup_failure c6run [.Global64]
    [.User64, .User32] .Global32 ("powershell not found") rfl
    (by
      intro j hj
      simp only [List.mem_singleton] at hj
      subst hj
      exact ⟨⟨false, ""⟩, rfl, rfl⟩)
    rfl
  exact h

/-- C3: the direct-strategy locator is pure string templating — a total
function of (version, platform) with no failure case. For every version `v`
and platform label `p` the URL is exactly
`https://msedgedriver.microsoft.com/<v>/edgedriver_<p>.zip`; in particular
`driver_url "100.0.1.2" "win64"` is the documented literal URL. The expected
extracted member name is `msedgedriver.exe` when the OS is windows and
`msedgedriver` for every other OS. -/
theorem driver_url_direct_strategy :
    (∀ version platform : String, driver_url version platform =
      "https://msedgedriver.microsoft.com/" ++ version ++ "/edgedriver_" ++
        platform ++ ".zip") ∧
    driver_url ("100.0.1.2") ("win64") =
      "https://msedgedriver.microsoft.com/100.0.1.2/edgedriver_win64.zip" ∧
    driver_filename ("windows") = "msedgedriver.exe" ∧
    (∀ os : String, os ≠ "windows" → driver_filename os = "msedgedriver") := by
  refine ⟨fun version platform => rfl, by decide, by decide, ?_⟩
  intro os h
  simp [driver_filename, h]

/-- Witness for C3 at concrete inputs, including a non-windows OS for the
member-name clause. -/
theorem driver_url_direct_strategy_witness :
    driver_url ("100.0.1.2") ("win64") =
      "https://msedgedriver.microsoft.com/100.0.1.2/edgedriver_win64.zip" ∧
    driver_filename ("linux") = "msedgedriver" :=
  ⟨driver_url_direct_strategy.2.1,
    driver_url_direct_strategy.2.2.2 ("linux") (by decide)⟩

/-- C4: platform resolution is total on (OS, architecture) pairs: each of the
six known pairs returns its fixed vendor label, and every other pair fails
with the unsupported-platform error (the `Error::Platform` variant carrying
that OS and architecture) and no other error kind. -/
theorem platform_current_total :
    Platform.current ("windows") ("x86_64") = .ok ("win64") ∧
    Platform.current ("windows") ("aarch64") = .ok ("arm64") ∧
    Platform.current ("windows") ("x86") = .ok ("win32") ∧
    Platform.current ("macos") ("x86_64") = .ok ("mac64") ∧
    Platform.current ("macos") ("aarch64") = .ok ("mac64_m1") ∧
    Platform.current ("linux") ("x86_64") = .ok ("linux64") ∧
    (∀ os arch : String,
      (os, arch) ∉ ([("windows", "x86_64"), ("windows", "aarch64"),
        ("windows", "x86"), ("macos", "x86_64"), ("macos", "aarch64"),
        ("linux", "x86_64")] : List (String × String)) →
      Platform.current os arch = .error (.Platform os arch)) := by
  refine ⟨rfl, rfl, rfl, rfl, rfl, rfl, ?_⟩
  intro os arch h
  unfold Platform.current
  split
  · simp at h
  · simp at h
  · simp at h
  · simp at h
  · simp at h
  · simp at h
  · rfl

/-- Witness for C4: an unknown pair fails with the unsupported-platform
error. -/
theorem platform_current_total_witness :
    Platform.current ("freebsd") ("x86_64") =
      .error (.Platform ("freebsd") ("x86_64")) :=
  platform_current_total.2.2.2.2.2.2 ("freebsd") ("x86_64") (by decide)

/-- C7: `fetch` enforces the fixed 100 MiB response-body ceiling. A body of
exactly `100 * 1024 * 1024` bytes is returned successfully in full; a body of
one more byte fails with the body-too-large error (`ureq`'s
body-exceeds-limit error wrapped as `Error::UReq`); any transport, DNS, TLS,
or non-2xx-status failure is wrapped as the network error `Error::UReq`.
`fetch` consumes the outcome of a single request, so no retry is performed. -/
theorem fetch_limit_spec :
    (∀ body : List Nat, body.length = 100 * 1024 * 1024 →
      fetch (.ok body) = .ok body) ∧
    (∀ body : List Nat, body.length = 100 * 1024 * 1024 + 1 →
      fetch (.ok body) = .error (.UReq .bodyExceedsLimit)) ∧
    (∀ e : UreqErr, fetch (.error e) = .error (.UReq e)) := by
  refine ⟨fun body h => ?_, fun body h => ?_, fun e => rfl⟩
  · simp [fetch, fetchLimit, h]
  · simp [fetch, fetchLimit, h]

/-- Witness for C7: a body of exactly 100 MiB of zero bytes succeeds, one
extra byte fails with the body-too-large error, and a transport failure is
reported as a network error. -/
theorem fetch_limit_spec_witness :
    fetch (.ok (List.replicate (100 * 1024 * 1024) 0)) =
      .ok (List.replicate (100 * 1024 * 1024) 0) ∧
    fetch (.ok (List.replicate (100 * 1024 * 1024 + 1) 0)) =
      .error (.UReq .bodyExceedsLimit) ∧
    fetch (.error (.transport ("connection refused"))) =
      .error (.UReq (.transport ("connection refused"))) :=
  ⟨fetch_limit_spec.1 (List.replicate (100 * 1024 * 1024) 0)
      (List.length_replicate _ _),
    fetch_limit_spec.2.1 (List.replicate (100 * 1024 * 1024 + 1) 0)
      (List.length_replicate _ _),
    fetch_limit_spec.2.2 (.transport ("connection refused"))⟩

/-- The empty filesystem, used by concrete witnesses. -/
def emptyFS : FS := fun _ => none

/-- C8: extracting from a well-formed archive containing a member named
`msedgedriver.exe` with known content writes exactly that decompressed
content, byte for byte, to the destination file: the call succeeds, the
resulting filesystem holds exactly `content` at the destination name
whatever was there before (created if absent, truncated if present), and
every other path is untouched. -/
theorem extract_writes_member_content
    (members : List (String × List Nat)) (fs : FS) (content : List Nat)
    (hfind : ZipArchive.by_name members ("msedgedriver.exe") = some content) :
    extract (.valid members) ("msedgedriver.exe") fs =
      (.ok (), fsWrite fs ("msedgedriver.exe") content) ∧
    fsWrite fs ("msedgedriver.exe") content ("msedgedriver.exe") =
      some content ∧
    (∀ n : String, n ≠ "msedgedriver.exe" →
      fsWrite fs ("msedgedriver.exe") content n = fs n) := by
  refine ⟨?_, ?_, ?_⟩
  · simp [extract, hfind]
  · simp [fsWrite]
  · intro n hn
    simp [fsWrite, hn]

/-- Witness for C8: a one-member archive extracts its three known bytes onto
the empty filesystem. -/
theorem extract_writes_member_content_witness :
    extract (.valid [(("msedgedriver.exe"), [77, 90, 144])])
        ("msedgedriver.exe") emptyFS =
      (.ok (), fsWrite emptyFS ("msedgedriver.exe") [77, 90, 144]) ∧
    fsWrite emptyFS ("msedgedriver.exe") [77, 90, 144] ("msedgedriver.exe") =
      some [77, 90, 144] ∧
    (∀ n : String, n ≠ "msedgedriver.exe" →
      fsWrite emptyFS ("msedgedriver.exe") [77, 90, 144] n = emptyFS n) :=
  extract_writes_member_content [(("msedgedriver.exe"), [77, 90, 144])]
    emptyFS [77, 90, 144] rfl

/-- C9: extraction without the requested member fails and leaves the
filesystem unchanged. For a well-formed archive with no entry named exactly
`filename`, the error is the member-not-found zip error; for a buffer that is
not a valid archive, it is the corrupt-archive zip error; in both cases the
returned filesystem is the input filesystem — no destination file is created
or written. -/
theorem extract_missing_member_fails (filename : String) (fs : FS) :
    (∀ members : List (String × List Nat),
      ZipArchive.by_name members filename = none →
      extract (.valid members) filename fs =
        (.error (.Zip .fileNotFound), fs)) ∧
    (∀ cause : String, extract (.invalid cause) filename fs =
      (.error (.Zip (.invalidArchive cause)), fs)) := by
  constructor
  · intro members h
    simp [extract, h]
  · intro cause
    rfl

/-- Witness for C9: a well-formed archive holding only a differently named
member, and an invalid buffer, both fail without touching the filesystem. -/
theorem extract_missing_member_fails_witness :
    extract (.valid [(("other.txt"), [1, 2])]) ("msedgedriver.exe") emptyFS =
      (.error (.Zip .fileNotFound), emptyFS) ∧
    extract (.invalid ("not a zip")) ("msedgedriver.exe") emptyFS =
      (.error (.Zip (.invalidArchive ("not a zip"))), emptyFS) :=
  ⟨(extract_missing_member_fails ("msedgedriver.exe") emptyFS).1
      [(("other.txt"), [1, 2])] rfl,
    (extract_missing_member_fails ("msedgedriver.exe") emptyFS).2
      ("not a zip")⟩

/-- C10: on a non-Windows build (`cfg!(windows)` false), `main` returns the
`Unsupported` error immediately: the filesystem is unchanged and the action
trace is empty — no version lookup, no platform resolution, no HTTP request,
and no file write happens, so no platform label is ever produced and the later
pipeline stages are unreachable. -/
theorem main_non_windows_unsupported (w : World) (h : w.windowsCfg = false) :
    mainRun w = (.error .Unsupported, w.fs, ([] : List Action)) := by
  simp [mainRun, h]

/-- A concrete non-Windows world for the C10 witness, whose injected
boundaries would all be observable if they were (wrongly) consulted. -/
def nonWindowsWorld : World where
  windowsCfg := false
  os := "linux"
  arch := "x86_64"
  run := fun _ => .ok ⟨true, "1.0.0.0"⟩
  http := fun _ => .ok [1]
  zipOf := fun _ => .invalid ("unused")
  fs := emptyFS

/-- Witness for C10: the concrete non-Windows world fails with `Unsupported`,
performing no action. -/
theorem main_non_windows_unsupported_witness :
    mainRun nonWindowsWorld = (.error .Unsupported, emptyFS, ([] : List Action)) :=
  main_non_windows_unsupported nonWindowsWorld rfl

end MsedgedriverTool
